import Mathlib

/-!
Verification of the client transport and capture hooks of the gym posture
correction system, embedded shallowly from
`frontend/src/hooks/useWebSocket.ts` (the revision exposing `sendMeta` and
`lastSkeletonUrl`) and `frontend/src/hooks/useCamera.ts`.

The WebSocket hook is modelled as an explicit state machine: the React hook
state (`status`, `feedback`, `error`, `lastSkeletonUrl`), the two refs
(`wsRef`, `reconnectTimeoutRef`), and the browser world it interacts with
(created sockets and their ready states, pending `setTimeout` timers,
created/revoked object URLs, messages sent on the wire).  Each
handler/callback of the hook becomes a pure function on this state, and an
event-step function applies transport events and user calls with their
deliverability guards.

One React-semantic fact is embedded explicitly and matters for the object
URL bookkeeping: `cleanup` is memoised by `useCallback` with deps `[]` and
`connect` with deps `[cleanup]`, so the `connect` closure that ever runs is
the one created on the first render.  The identifier `lastSkeletonUrl` read
inside `ws.onmessage` therefore resolves to the first render's `const`
binding, whose value is the initial `null`, regardless of later
`setLastSkeletonUrl` calls.  The model carries this captured binding as
`capturedSkeletonUrl`, fixed to `none` in the initial state and never
written.
-/

namespace Posture

/-- Client connection state, `ConnectionStatus` in `useWebSocket.ts`. -/
inductive ConnectionStatus
  | disconnected
  | connecting
  | connected
  | error
deriving DecidableEq

/-- Normalized feedback status, the `status` field of `PoseResponse`:
`'ok' | 'no_pose' | 'incorrect' | 'unknown'`. -/
inductive PStatus
  | ok
  | noPose
  | incorrect
  | unknown
deriving DecidableEq

/-- The normalized response the hook stores for the UI (`PoseResponse`). -/
structure PoseResponse where
  status : PStatus
  feedback : String
deriving DecidableEq

/-- The `feedback` field of a parsed server message: the backend may send a
string array, a single string, or omit the field (`feedback?: string[] | string`). -/
inductive FeedbackField
  | absent
  | str (s : String)
  | arr (xs : List String)
deriving DecidableEq

/-- A base64 `skeleton_frame` payload as seen by `atob`: either it decodes to
bytes or `atob` throws (characters outside the base64 alphabet). -/
inductive SkeletonB64
  | valid (bytes : List Nat)
  | invalid
deriving DecidableEq

/-- A successfully `JSON.parse`d server text message (`RawServerMessage`),
restricted to the fields the handler reads: `feedback` and `skeleton_frame`. -/
structure RawServerMessage where
  feedback : FeedbackField
  skeleton_frame : Option SkeletonB64
deriving DecidableEq

/-- `nee` is an initial run of `hay` (character-level prefix test, the inner
loop of JS `String.prototype.includes`). -/
def listLeads : List Char → List Char → Bool
  | [], _ => true
  | _ :: _, [] => false
  | n :: ns, h :: hs => n = h && listLeads ns hs

/-- `nee` occurs contiguously somewhere in `hay`. -/
def listHasSub (nee : List Char) : List Char → Bool
  | [] => nee.isEmpty
  | h :: hs => listLeads nee (h :: hs) || listHasSub nee hs

/-- JS `hay.includes(nee)` on a hay already given as characters. -/
def containsSub (hay : List Char) (nee : String) : Bool :=
  listHasSub nee.data hay

/-- JS `s.toLowerCase()` on the strings at hand (ASCII feedback text),
character by character. -/
def lowerChars (s : String) : List Char :=
  s.data.map Char.toLower

/-- The `ws.onmessage` normalization of the `feedback` field into the local
`fbArr : string[]` (array is spread, string is wrapped, anything else gives
an empty array). -/
def normalizeFeedback : FeedbackField → List String
  | .absent => []
  | .str s => [s]
  | .arr xs => xs

/-- The status heuristic of `ws.onmessage` ("Determine status heuristically
from messages"): empty array means `no_pose`; otherwise the messages are
joined with spaces, lower-cased, and matched for fixed substrings. -/
def statusGuess (fbArr : List String) : PStatus :=
  if fbArr.length = 0 then .noPose
  else
    let joined := lowerChars (String.intercalate " " fbArr)
    if containsSub joined "please get fully into the frame" || containsSub joined "no person" then
      .noPose
    else if containsSub joined "excellent" || containsSub joined "good"
        || containsSub joined "nice" || containsSub joined "great" then
      .ok
    else if containsSub joined "not supported" then
      .unknown
    else
      .incorrect

/-- The `PoseResponse` the handler passes to `setFeedback`: the heuristic
status plus the messages joined with `" | "`. -/
def normalizeResponse (m : RawServerMessage) : PoseResponse :=
  { status := statusGuess (normalizeFeedback m.feedback)
    feedback := String.intercalate " | " (normalizeFeedback m.feedback) }

/-- JSON values as produced by `JSON.stringify` on the objects the hook
sends (string/boolean leaves and objects with ordered keys). -/
inductive Json
  | str (s : String)
  | boolV (b : Bool)
  | obj (kvs : List (String × Json))

/-- The ordered key list of a JSON object (empty for leaves). -/
def jsonKeys : Json → List String
  | .obj kvs => kvs.map (fun kv => kv.1)
  | _ => []

/-- One message sent on the socket: a JSON text frame or a raw binary payload. -/
inductive WireMsg
  | text (j : Json)
  | binary (bytes : List Nat)

/-- An inbound text payload, abstracted at the `JSON.parse` boundary: either
the parse throws (`malformed`) or it yields a `RawServerMessage`. -/
inductive TextPayload
  | malformed
  | envelope (m : RawServerMessage)
deriving DecidableEq

/-- Inbound `event.data`: a binary `Blob` or a text payload. -/
inductive InData
  | blob (bytes : List Nat)
  | text (p : TextPayload)

/-- Ready state of one browser `WebSocket` object. -/
inductive SockState
  | connecting
  | opened
  | closing
  | closed
deriving DecidableEq

/-- The whole model state: the hook's React state, its refs, and the browser
world (sockets, timers, object URLs, wire traffic). -/
structure Model where
  /-- `status` React state. -/
  status : ConnectionStatus
  /-- `feedback` React state. -/
  feedback : Option PoseResponse
  /-- `error` React state. -/
  errorMsg : Option String
  /-- `lastSkeletonUrl` React state (object URLs numbered by allocation). -/
  lastSkeletonUrl : Option Nat
  /-- The first-render `lastSkeletonUrl` binding captured by the memoised
  `connect` closure and hence read by `ws.onmessage`; `none` at mount and
  never written (see the file header). -/
  capturedSkeletonUrl : Option Nat
  /-- `wsRef.current`, naming a socket by id. -/
  wsRef : Option Nat
  /-- `reconnectTimeoutRef.current`, naming a timer by id. -/
  reconnectRef : Option Nat
  /-- Every socket ever constructed, with its current ready state. -/
  socks : List (Nat × SockState)
  /-- Pending (scheduled, not yet fired, not cleared) reconnect timers. -/
  liveTimers : List Nat
  nextSock : Nat
  nextTimer : Nat
  nextUrl : Nat
  /-- Object URLs ever passed out of `URL.createObjectURL`. -/
  createdUrls : List Nat
  /-- Object URLs passed to `URL.revokeObjectURL`. -/
  revokedUrls : List Nat
  /-- Messages sent on the wire, in order. -/
  sent : List WireMsg

/-- The state at hook mount. -/
def initModel : Model where
  status := .disconnected
  feedback := none
  errorMsg := none
  lastSkeletonUrl := none
  capturedSkeletonUrl := none
  wsRef := none
  reconnectRef := none
  socks := []
  liveTimers := []
  nextSock := 0
  nextTimer := 0
  nextUrl := 0
  createdUrls := []
  revokedUrls := []
  sent := []

/-- Replace the state of socket `sid` in the socket table. -/
def updateSock : List (Nat × SockState) → Nat → SockState → List (Nat × SockState)
  | [], _, _ => []
  | (k, v) :: rest, sid, st =>
    (if k = sid then (k, st) else (k, v)) :: updateSock rest sid st

/-- The `cleanup` callback: clear a pending reconnect timer if the ref holds
one, then `close()` the current socket if the ref holds one, nulling both
refs. -/
def cleanupRun (m : Model) : Model :=
  let m1 :=
    match m.reconnectRef with
    | some t => { m with liveTimers := m.liveTimers.erase t, reconnectRef := none }
    | none => m
  match m1.wsRef with
  | some sid => { m1 with socks := updateSock m1.socks sid .closing, wsRef := none }
  | none => m1

/-- The `connect` callback: `cleanup()`, set status `connecting`, clear the
error, then construct a fresh `WebSocket` and store it in `wsRef`.
`resolveWebSocketUrl` always yields a well-formed ws/wss URL, so the
constructor is modelled as succeeding (the `catch` branch is unreachable). -/
def connectRun (m : Model) : Model :=
  let m1 := cleanupRun m
  let m2 := { m1 with status := ConnectionStatus.connecting, errorMsg := none }
  { m2 with
    socks := m2.socks ++ [(m2.nextSock, SockState.connecting)]
    wsRef := some m2.nextSock
    nextSock := m2.nextSock + 1 }

/-- The `disconnect` callback: `cleanup()`, then status `disconnected` and
feedback `null`. -/
def disconnectRun (m : Model) : Model :=
  let m1 := cleanupRun m
  { m1 with status := ConnectionStatus.disconnected, feedback := none }

/-- The `ws.onopen` handler: status `connected`, error cleared. -/
def onOpenRun (m : Model) : Model :=
  { m with status := ConnectionStatus.connected, errorMsg := none }

/-- The `ws.onerror` handler: status `error`, error message set, `wsRef`
nulled. -/
def onErrorRun (m : Model) : Model :=
  { m with
    status := ConnectionStatus.error
    errorMsg := some "Failed to connect to posture detection server. Ensure backend is running."
    wsRef := none
    feedback := m.feedback }

/-- The `ws.onclose` handler body: status `disconnected`, `wsRef` nulled;
then, when the close code is not 1000, a fresh 1.5 s reconnect timer is
created with `setTimeout` and stored in `reconnectTimeoutRef.current`
(overwriting the ref; the handler contains no `clearTimeout`). -/
def onCloseRun (m : Model) (code : Nat) : Model :=
  let m1 := { m with status := ConnectionStatus.disconnected, wsRef := none }
  if code ≠ 1000 then
    { m1 with
      liveTimers := m1.liveTimers ++ [m1.nextTimer]
      reconnectRef := some m1.nextTimer
      nextTimer := m1.nextTimer + 1 }
  else m1

/-- Allocate an object URL for a fresh skeleton blob, first revoking the URL
the handler's closure sees in its captured `lastSkeletonUrl` binding (see the
file header: that binding is the first render's, not the current state). -/
def allocSkeletonUrl (m : Model) : Model :=
  let m1 :=
    match m.capturedSkeletonUrl with
    | some u => { m with revokedUrls := m.revokedUrls ++ [u] }
    | none => m
  { m1 with
    createdUrls := m1.createdUrls ++ [m1.nextUrl]
    lastSkeletonUrl := some m1.nextUrl
    nextUrl := m1.nextUrl + 1 }

/-- The `ws.onmessage` handler.  A `Blob` becomes a skeleton object URL.  A
text payload is `JSON.parse`d: on throw the `catch` only logs.  Otherwise the
feedback field is normalized and stored via `setFeedback`, then a present
`skeleton_frame` is `atob`-decoded into a blob URL; an invalid base64 payload
makes `atob` throw, reaching the same `catch` after the feedback update. -/
def onMessageRun (m : Model) : InData → Model
  | .blob _ => allocSkeletonUrl m
  | .text .malformed => m
  | .text (.envelope e) =>
    let m1 := { m with feedback := some (normalizeResponse e) }
    match e.skeleton_frame with
    | none => m1
    | some .invalid => m1
    | some (.valid _) => allocSkeletonUrl m1

/-- The `sendFrame` callback: a no-op unless `wsRef` holds a socket whose
ready state is OPEN; a string payload is sent as one JSON text message with
keys `exercise` and `frame`; an `ArrayBuffer` is announced by a
`{type, exercise}` meta JSON and then sent raw. -/
def sendFrameRun (m : Model) (data : String ⊕ List Nat) (exercise : String) : Model :=
  match m.wsRef with
  | some sid =>
    if m.socks.lookup sid = some SockState.opened then
      match data with
      | .inl s =>
        { m with sent := m.sent ++ [WireMsg.text (Json.obj [("exercise", .str exercise), ("frame", .str s)])] }
      | .inr b =>
        { m with sent := m.sent ++
            [WireMsg.text (Json.obj [("type", .str "meta"), ("exercise", .str exercise)]),
             WireMsg.binary b] }
    else m
  | none => m

/-- The `sendMeta` callback: a no-op unless the socket is OPEN; otherwise the
given object is stringified and sent. -/
def sendMetaRun (m : Model) (kvs : List (String × Json)) : Model :=
  match m.wsRef with
  | some sid =>
    if m.socks.lookup sid = some SockState.opened then
      { m with sent := m.sent ++ [WireMsg.text (Json.obj kvs)] }
    else m
  | none => m

/-- Events driving the hook: user calls, transport events on a named socket
(with the close code chosen by the environment, per RFC 6455 / WHATWG the
client cannot dictate it), a reconnect timer firing, and component unmount
(which runs the effect teardown, i.e. `cleanup`). -/
inductive Event
  | connectCall
  | disconnectCall
  | unmount
  | openEv (sid : Nat)
  | closeEv (sid : Nat) (code : Nat)
  | errEv (sid : Nat)
  | msgEv (sid : Nat) (d : InData)
  | timerFire (t : Nat)
  | sendFrameStr (exercise s : String)
  | sendFrameBin (exercise : String) (bytes : List Nat)
  | sendMetaEv (kvs : List (String × Json))

/-- One event step.  `none` means the event is not deliverable in this state
(opening a socket that is not connecting, a second close of the same socket,
a message on a non-open socket, a dead timer firing). -/
def step (m : Model) : Event → Option Model
  | .connectCall => some (connectRun m)
  | .disconnectCall => some (disconnectRun m)
  | .unmount => some (cleanupRun m)
  | .openEv sid =>
    if m.socks.lookup sid = some SockState.connecting then
      some { onOpenRun m with socks := updateSock m.socks sid .opened }
    else none
  | .closeEv sid code =>
    match m.socks.lookup sid with
    | some st =>
      if st ≠ SockState.closed then
        some (onCloseRun { m with socks := updateSock m.socks sid .closed } code)
      else none
    | none => none
  | .errEv sid =>
    match m.socks.lookup sid with
    | some st => if st ≠ SockState.closed then some (onErrorRun m) else none
    | none => none
  | .msgEv sid d =>
    if m.socks.lookup sid = some SockState.opened then
      some (onMessageRun m d)
    else none
  | .timerFire t =>
    if t ∈ m.liveTimers then
      some (connectRun { m with liveTimers := m.liveTimers.erase t })
    else none
  | .sendFrameStr exercise s => some (sendFrameRun m (.inl s) exercise)
  | .sendFrameBin exercise b => some (sendFrameRun m (.inr b) exercise)
  | .sendMetaEv kvs => some (sendMetaRun m kvs)

/-- Run a list of events from a state, failing if any event is undeliverable. -/
def run (m : Model) : List Event → Option Model
  | [] => some m
  | e :: es =>
    match step m e with
    | some m1 => run m1 es
    | none => none

/-- The connection-status transition table asserted by the specification:
`connect()` (also when invoked by a firing reconnect timer) drives the status
to `connecting`, the socket's open event to `connected`, its close event to
`disconnected`, its error event to `error`, `disconnect()` to
`disconnected`; every other operation leaves the status alone.  This is the
spec-side table the step function is compared against. -/
def specStatusAfter (m : Model) : Event → ConnectionStatus
  | .connectCall => .connecting
  | .disconnectCall => .disconnected
  | .unmount => m.status
  | .openEv _ => .connected
  | .closeEv _ _ => .disconnected
  | .errEv _ => .error
  | .msgEv _ _ => m.status
  | .timerFire _ => .connecting
  | .sendFrameStr _ _ => m.status
  | .sendFrameBin _ _ => m.status
  | .sendMetaEv _ => m.status

/-- The environment of `useCamera.ts`'s `captureFrame`: whether the video and
canvas refs are non-null, whether the camera is streaming, whether
`canvas.getContext('2d')` returns a context, and the base64 payload the
canvas encodes into its JPEG data URL. -/
structure CameraModel where
  videoPresent : Bool
  canvasPresent : Bool
  isStreaming : Bool
  ctxAvailable : Bool
  jpegB64 : List Char

/-- JS `s.split(',')` at character level (every maximal comma-free run, with
empty runs kept). -/
def splitOnComma : List Char → List (List Char)
  | [] => [[]]
  | c :: rest =>
    if c = ',' then [] :: splitOnComma rest
    else
      match splitOnComma rest with
      | [] => [[c]]
      | h :: t => (c :: h) :: t

/-- The fixed header of `canvas.toDataURL('image/jpeg', 0.8)`. -/
def dataUrlHeader : List Char := "data:image/jpeg;base64,".data

/-- `captureFrame`: `null` when the video or canvas ref is unavailable or the
camera is not streaming, `null` again when no 2D context can be obtained;
otherwise the JPEG data URL is built and `split(',')[1]` is returned. -/
def captureFrame (c : CameraModel) : Option (List Char) :=
  if !(c.videoPresent && c.canvasPresent && c.isStreaming) then none
  else if !c.ctxAvailable then none
  else some ((splitOnComma (dataUrlHeader ++ c.jpegB64)).getD 1 [])

/-- A concrete hook state with one open socket, a pending reconnect timer 7,
and a stored feedback value. -/
def c5State : Model :=
  { initModel with
    wsRef := some 0
    socks := [(0, SockState.opened)]
    reconnectRef := some 7
    liveTimers := [7]
    feedback := some ⟨PStatus.ok, "good"⟩ }

/-! ## Auxiliary lemmas shared by the claim theorems -/

theorem lookup_updateSock (l : List (Nat × SockState)) (sid : Nat) (st st' : SockState)
    (h : l.lookup sid = some st) : (updateSock l sid st').lookup sid = some st' := by
  induction l with
  | nil => simp [List.lookup] at h
  | cons p rest ih =>
    obtain ⟨k, v⟩ := p
    rw [updateSock]
    by_cases hp : k = sid
    · subst hp
      rw [if_pos rfl]
      simp [List.lookup]
    · have hbk : (sid == k) = false := by simp [Ne.symm hp]
      rw [if_neg hp]
      simp only [List.lookup, hbk] at h ⊢
      exact ih h

theorem cleanupRun_status (m : Model) : (cleanupRun m).status = m.status := by
  cases hrc : m.reconnectRef <;> cases hws : m.wsRef <;> simp [cleanupRun, hrc, hws]

theorem connectRun_status (m : Model) : (connectRun m).status = ConnectionStatus.connecting := rfl

theorem disconnectRun_status (m : Model) : (disconnectRun m).status = ConnectionStatus.disconnected := rfl

theorem allocSkeletonUrl_status (m : Model) : (allocSkeletonUrl m).status = m.status := by
  cases hc : m.capturedSkeletonUrl <;> simp [allocSkeletonUrl, hc]

theorem onMessageRun_status (m : Model) (d : InData) : (onMessageRun m d).status = m.status := by
  cases d with
  | blob b => simpa [onMessageRun] using allocSkeletonUrl_status m
  | text p =>
    cases p with
    | malformed => rfl
    | envelope e =>
      cases hsk : e.skeleton_frame with
      | none => simp [onMessageRun, hsk]
      | some sb =>
        cases sb with
        | invalid => simp [onMessageRun, hsk]
        | valid bytes =>
          simp [onMessageRun, hsk]
          simpa using allocSkeletonUrl_status { m with feedback := some (normalizeResponse e) }

theorem onCloseRun_status (m : Model) (code : Nat) :
    (onCloseRun m code).status = ConnectionStatus.disconnected := by
  by_cases hc : code ≠ 1000 <;> simp [onCloseRun, hc]

theorem sendFrameRun_status (m : Model) (d : String ⊕ List Nat) (ex : String) :
    (sendFrameRun m d ex).status = m.status := by
  cases hws : m.wsRef with
  | none => simp [sendFrameRun, hws]
  | some sid =>
    by_cases hl : m.socks.lookup sid = some SockState.opened <;>
      cases d <;> simp [sendFrameRun, hws, hl]

theorem sendMetaRun_status (m : Model) (kvs : List (String × Json)) :
    (sendMetaRun m kvs).status = m.status := by
  cases hws : m.wsRef with
  | none => simp [sendMetaRun, hws]
  | some sid =>
    by_cases hl : m.socks.lookup sid = some SockState.opened <;> simp [sendMetaRun, hws, hl]

/-! ## Claim theorems -/

/-- C1: counterexample.  Two server envelopes with identical structure (a
one-element feedback array, no skeleton field, and no structured status field
at all) but different feedback wording are normalized to different client
statuses, so the normalized status does depend on the wording of the
free-text feedback strings. -/
theorem C1_counterexample :
    (run initModel [.connectCall, .openEv 0,
        .msgEv 0 (.text (.envelope ⟨.arr ["great form"], none⟩))]).map
        (fun m => m.feedback.map (fun r => r.status)) = some (some .ok)
    ∧ (run initModel [.connectCall, .openEv 0,
        .msgEv 0 (.text (.envelope ⟨.arr ["keep your back flat"], none⟩))]).map
        (fun m => m.feedback.map (fun r => r.status)) = some (some .incorrect)
    ∧ PStatus.ok ≠ PStatus.incorrect :=
  ⟨rfl, rfl, by decide⟩

/-- C1 (amended): for every envelope delivered on an open socket, the client
stores the feedback whose status is `statusGuess` of the normalized feedback
strings — a substring heuristic over the joined, lower-cased free text
(empty list → `no_pose`; frame/no-person phrases → `no_pose`; praise words →
`ok`; "not supported" → `unknown`; anything else → `incorrect`).  The status
is therefore a deterministic function of the feedback wording, not of any
structured status field (the envelope carries none). -/
theorem C1_amended (m : Model) (sid : Nat) (e : RawServerMessage)
    (h : m.socks.lookup sid = some SockState.opened) :
    (step m (.msgEv sid (.text (.envelope e)))).map (fun m' => m'.feedback)
      = some (some (normalizeResponse e)) := by
  cases hsk : e.skeleton_frame with
  | none => simp [step, h, onMessageRun, hsk]
  | some sb =>
    cases sb with
    | invalid => simp [step, h, onMessageRun, hsk]
    | valid bytes =>
      cases hc : m.capturedSkeletonUrl with
      | none => simp [step, h, onMessageRun, hsk, allocSkeletonUrl, hc]
      | some u => simp [step, h, onMessageRun, hsk, allocSkeletonUrl, hc]

/-- C1: witness for the amended theorem at a concrete open-socket state. -/
theorem C1_witness :
    ({ initModel with socks := [(0, SockState.opened)] } : Model).socks.lookup 0
        = some SockState.opened
    ∧ (step { initModel with socks := [(0, SockState.opened)] }
        (.msgEv 0 (.text (.envelope ⟨.arr ["good job"], none⟩)))).map
        (fun m' => m'.feedback)
      = some (some (normalizeResponse ⟨.arr ["good job"], none⟩)) :=
  ⟨rfl, C1_amended _ 0 _ rfl⟩

/-- C2: counterexample.  A connect, a second connect while the first socket
is still alive (its `close()` is issued but the network drops the connection,
so its close event carries 1006), then an abnormal close of the second
socket: after the second abnormal close both timers 0 and 1 are pending —
the previously scheduled timer was not cancelled before the new one was
stored, and two reconnect timers are pending at once. -/
theorem C2_counterexample :
    (run initModel [.connectCall, .openEv 0, .connectCall, .openEv 1,
        .closeEv 0 1006, .closeEv 1 1006]).map
        (fun m => (m.liveTimers, m.reconnectRef)) = some ([0, 1], some 1) :=
  rfl

/-- C2 (amended): on a close event with the normal code 1000 no reconnect
timer is scheduled and the timer ref is untouched; on any other close code
exactly one new timer is scheduled (to fire once after the fixed 1.5 s
delay) and stored in the ref, but the handler cancels nothing: a previously
pending timer stays pending (it is only ever cancelled by the `cleanup` run
from `connect()`/`disconnect()`), so two pending timers are reachable. -/
theorem C2_amended (m : Model) (sid code : Nat) (st : SockState)
    (h : m.socks.lookup sid = some st) (hne : st ≠ SockState.closed) :
    (code = 1000 →
      (step m (.closeEv sid code)).map (fun m' => (m'.liveTimers, m'.reconnectRef))
        = some (m.liveTimers, m.reconnectRef))
    ∧ (code ≠ 1000 →
      (step m (.closeEv sid code)).map (fun m' => (m'.liveTimers, m'.reconnectRef))
        = some (m.liveTimers ++ [m.nextTimer], some m.nextTimer)) := by
  constructor
  · intro h1000
    subst h1000
    simp [step, h, hne, onCloseRun]
  · intro hno
    simp [step, h, hne, onCloseRun, hno]

/-- C2: witness for the amended theorem — an abnormal close (1006) of an
open socket in a concrete state schedules exactly timer 0. -/
theorem C2_witness :
    ({ initModel with socks := [(0, SockState.opened)] } : Model).socks.lookup 0
        = some SockState.opened
    ∧ (step { initModel with socks := [(0, SockState.opened)] } (.closeEv 0 1006)).map
        (fun m' => (m'.liveTimers, m'.reconnectRef)) = some ([0], some 0) := by
  refine ⟨rfl, ?_⟩
  have h := (C2_amended { initModel with socks := [(0, SockState.opened)] } 0 1006
      SockState.opened rfl (by decide)).2 (by decide)
  simpa using h

/-- C3: an envelope whose feedback field normalizes to the empty list of
strings is stored with status `no_pose`, whatever the rest of the model
state (in particular whatever the active exercise) and whatever else the
envelope carries. -/
theorem C3_theorem (m : Model) (sid : Nat) (e : RawServerMessage)
    (h : m.socks.lookup sid = some SockState.opened)
    (hfb : normalizeFeedback e.feedback = []) :
    (step m (.msgEv sid (.text (.envelope e)))).map
      (fun m' => m'.feedback.map (fun r => r.status)) = some (some PStatus.noPose) := by
  have hst : (normalizeResponse e).status = PStatus.noPose := by
    simp [normalizeResponse, hfb, statusGuess]
  cases hsk : e.skeleton_frame with
  | none => simp [step, h, onMessageRun, hsk, hst]
  | some sb =>
    cases sb with
    | invalid => simp [step, h, onMessageRun, hsk, hst]
    | valid bytes =>
      cases hc : m.capturedSkeletonUrl with
      | none => simp [step, h, onMessageRun, hsk, allocSkeletonUrl, hc, hst]
      | some u => simp [step, h, onMessageRun, hsk, allocSkeletonUrl, hc, hst]

/-- C3: witness — an envelope with an explicitly empty feedback array on a
concrete open-socket state yields status `no_pose`. -/
theorem C3_witness :
    ({ initModel with socks := [(0, SockState.opened)] } : Model).socks.lookup 0
        = some SockState.opened
    ∧ normalizeFeedback (FeedbackField.arr []) = []
    ∧ (step { initModel with socks := [(0, SockState.opened)] }
        (.msgEv 0 (.text (.envelope ⟨.arr [], none⟩)))).map
        (fun m' => m'.feedback.map (fun r => r.status)) = some (some PStatus.noPose) :=
  ⟨rfl, rfl, C3_theorem _ 0 ⟨.arr [], none⟩ rfl rfl⟩

/-- C4: counterexample.  A text message that is valid JSON but whose
`skeleton_frame` is not valid base64 makes `atob` throw inside the handler —
yet by then `setFeedback` has already run, so the last feedback value does
not keep its prior value (it changes from `none` to an `ok` response); the
claim that a message whose handling throws leaves all client state unchanged
is false at this input.  (The connection is indeed not closed.) -/
theorem C4_counterexample :
    initModel.feedback = none
    ∧ (run initModel [.connectCall, .openEv 0,
        .msgEv 0 (.text (.envelope ⟨.arr ["good job"], some SkeletonB64.invalid⟩))]).map
        (fun m => (m.feedback, m.socks.lookup 0))
      = some (some ⟨PStatus.ok, "good job"⟩, some SockState.opened) :=
  ⟨rfl, rfl⟩

/-- C4 (amended): a text message that fails `JSON.parse` is dropped with only
a logged error — the entire model state (status, feedback, skeleton URL,
socket table, wire) is unchanged and the connection is not closed; a message
that throws later in handling (invalid base64 in `skeleton_frame`) keeps the
feedback update already applied before the throw, changes nothing else, and
also leaves the connection open. -/
theorem C4_amended (m : Model) (sid : Nat) (e : RawServerMessage)
    (h : m.socks.lookup sid = some SockState.opened) :
    step m (.msgEv sid (.text .malformed)) = some m
    ∧ (e.skeleton_frame = some SkeletonB64.invalid →
        step m (.msgEv sid (.text (.envelope e)))
          = some { m with feedback := some (normalizeResponse e) }) := by
  constructor
  · simp [step, h, onMessageRun]
  · intro hsk
    simp [step, h, onMessageRun, hsk]

/-- C4: witness for the amended theorem at a concrete open-socket state. -/
theorem C4_witness :
    ({ initModel with socks := [(0, SockState.opened)] } : Model).socks.lookup 0
        = some SockState.opened
    ∧ step { initModel with socks := [(0, SockState.opened)] } (.msgEv 0 (.text .malformed))
        = some { initModel with socks := [(0, SockState.opened)] } :=
  ⟨rfl, (C4_amended { initModel with socks := [(0, SockState.opened)] } 0
      ⟨.absent, none⟩ rfl).1⟩

/-- C5: counterexample.  `disconnect()` closes the socket with an
argumentless `close()`, so the client cannot force the delivered close code
to 1000; when the resulting close event carries 1005 (no status present, the
WHATWG default for a codeless close), `ws.onclose` schedules a reconnect
timer — a reconnect attempt is scheduled after an explicit disconnect,
contradicting the claim. -/
theorem C5_counterexample :
    (run initModel [.connectCall, .openEv 0, .disconnectCall, .closeEv 0 1005]).map
      (fun m => (m.liveTimers, m.reconnectRef)) = some ([0], some 0) :=
  rfl

/-- C5 (amended): `disconnect()` itself cancels the pending reconnect timer
(if any), nulls the timer ref, issues `close()` on the current socket and
nulls the socket ref, sets the status to `disconnected`, clears the feedback
to `null`, and schedules no timer of its own; but the close event later
delivered for the closed socket is still handled by `ws.onclose`, which
schedules a reconnect whenever that event's code is not 1000. -/
theorem C5_amended (m : Model) (sid : Nat) (st : SockState)
    (hws : m.wsRef = some sid) (hs : m.socks.lookup sid = some st) :
    (disconnectRun m).status = ConnectionStatus.disconnected
    ∧ (disconnectRun m).feedback = none
    ∧ (disconnectRun m).reconnectRef = none
    ∧ (disconnectRun m).liveTimers =
        (match m.reconnectRef with
         | some t => m.liveTimers.erase t
         | none => m.liveTimers)
    ∧ (disconnectRun m).wsRef = none
    ∧ (disconnectRun m).nextTimer = m.nextTimer
    ∧ (disconnectRun m).socks.lookup sid = some SockState.closing := by
  cases hrc : m.reconnectRef <;>
    simp [disconnectRun, cleanupRun, hrc, hws, lookup_updateSock _ _ _ _ hs]

/-- C5: witness — on the concrete state `c5State` (open socket, pending
reconnect timer 7, stored feedback), `disconnect()` cancels the timer,
closes the socket, resets status and feedback, and creates no timer. -/
theorem C5_witness :
    c5State.wsRef = some 0
    ∧ (disconnectRun c5State).status = ConnectionStatus.disconnected
    ∧ (disconnectRun c5State).feedback = none
    ∧ (disconnectRun c5State).liveTimers = [7].erase 7
    ∧ (disconnectRun c5State).socks.lookup 0 = some SockState.closing := by
  have h := C5_amended c5State 0 SockState.opened rfl rfl
  exact ⟨rfl, h.1, h.2.1, h.2.2.2.1, h.2.2.2.2.2.2⟩

/-- C6: while the socket in `wsRef` is OPEN, `sendFrame` with a base64
string sends exactly one JSON text message, whose object has exactly the
keys `exercise` and `frame` in that order; `sendFrame` with an
`ArrayBuffer` first sends the JSON meta message
`{"type":"meta","exercise": <id>}` and immediately after it the raw binary
payload, and nothing else. -/
theorem C6_theorem (m : Model) (sid : Nat) (exercise s : String) (b : List Nat)
    (hws : m.wsRef = some sid) (hs : m.socks.lookup sid = some SockState.opened) :
    (sendFrameRun m (.inl s) exercise).sent
        = m.sent ++ [WireMsg.text (Json.obj [("exercise", Json.str exercise), ("frame", Json.str s)])]
    ∧ jsonKeys (Json.obj [("exercise", Json.str exercise), ("frame", Json.str s)])
        = ["exercise", "frame"]
    ∧ (sendFrameRun m (.inr b) exercise).sent
        = m.sent ++ [WireMsg.text (Json.obj [("type", Json.str "meta"), ("exercise", Json.str exercise)]),
                     WireMsg.binary b] := by
  refine ⟨?_, rfl, ?_⟩ <;> simp [sendFrameRun, hws, hs]

/-- C6: witness — both send shapes on a concrete open-socket state. -/
theorem C6_witness :
    ({ initModel with wsRef := some 0, socks := [(0, SockState.opened)] } : Model).wsRef
        = some 0
    ∧ (sendFrameRun { initModel with wsRef := some 0, socks := [(0, SockState.opened)] }
        (.inl "AAAA") "squat").sent
      = [WireMsg.text (Json.obj [("exercise", Json.str "squat"), ("frame", Json.str "AAAA")])]
    ∧ (sendFrameRun { initModel with wsRef := some 0, socks := [(0, SockState.opened)] }
        (.inr [9, 9]) "squat").sent
      = [WireMsg.text (Json.obj [("type", Json.str "meta"), ("exercise", Json.str "squat")]),
         WireMsg.binary [9, 9]] := by
  have h := C6_theorem { initModel with wsRef := some 0, socks := [(0, SockState.opened)] }
      0 "squat" "AAAA" [9, 9] rfl rfl
  exact ⟨rfl, h.1, h.2.2⟩

/-- C7: the client connection status (which by construction ranges over
`disconnected | connecting | connected | error`) changes exactly as the
claim's transition table `specStatusAfter` prescribes: `connect()` (also
when run by a firing reconnect timer) sets `connecting`, the open event
`connected`, the close event `disconnected`, the error event `error`,
`disconnect()` sets `disconnected`, and every other operation of the hook
(messages, sends, unmount teardown) leaves the status unchanged. -/
theorem C7_theorem (m : Model) (e : Event) (m' : Model)
    (h : step m e = some m') : m'.status = specStatusAfter m e := by
  cases e with
  | connectCall =>
    simp only [step, Option.some.injEq] at h
    subst h
    exact connectRun_status m
  | disconnectCall =>
    simp only [step, Option.some.injEq] at h
    subst h
    exact disconnectRun_status m
  | unmount =>
    simp only [step, Option.some.injEq] at h
    subst h
    exact cleanupRun_status m
  | openEv sid =>
    simp only [step] at h
    split at h
    · simp only [Option.some.injEq] at h
      subst h
      rfl
    · exact absurd h (by simp)
  | closeEv sid code =>
    simp only [step] at h
    split at h
    · split at h
      · simp only [Option.some.injEq] at h
        subst h
        exact onCloseRun_status _ code
      · exact absurd h (by simp)
    · exact absurd h (by simp)
  | errEv sid =>
    simp only [step] at h
    split at h
    · split at h
      · simp only [Option.some.injEq] at h
        subst h
        rfl
      · exact absurd h (by simp)
    · exact absurd h (by simp)
  | msgEv sid d =>
    simp only [step] at h
    split at h
    · simp only [Option.some.injEq] at h
      subst h
      exact onMessageRun_status m d
    · exact absurd h (by simp)
  | timerFire t =>
    simp only [step] at h
    split at h
    · simp only [Option.some.injEq] at h
      subst h
      exact connectRun_status _
    · exact absurd h (by simp)
  | sendFrameStr exercise s =>
    simp only [step, Option.some.injEq] at h
    subst h
    exact sendFrameRun_status m _ _
  | sendFrameBin exercise b =>
    simp only [step, Option.some.injEq] at h
    subst h
    exact sendFrameRun_status m _ _
  | sendMetaEv kvs =>
    simp only [step, Option.some.injEq] at h
    subst h
    exact sendMetaRun_status m kvs

/-- C7: witness — `connect()` from the mount state moves the status to
`connecting`, as the transition table prescribes. -/
theorem C7_witness :
    step initModel Event.connectCall = some (connectRun initModel)
    ∧ (connectRun initModel).status = specStatusAfter initModel Event.connectCall :=
  ⟨rfl, C7_theorem initModel Event.connectCall (connectRun initModel) rfl⟩

/-- C8: evaluation at the failing input.  Socket opened, two binary skeleton
frames delivered, then unmount: two object URLs are created and zero are
revoked — the handler's revoke reads the stale first-render copy of
`lastSkeletonUrl` (always `null`), so the previous URL is never revoked on
replacement, and the unmount teardown (`cleanup`) revokes nothing either;
two unrevoked skeleton object URLs exist at once, contradicting the claimed
at-most-one invariant although the code's own comment says "free previous
URL". -/
theorem C8_theorem :
    (run initModel [.connectCall, .openEv 0, .msgEv 0 (.blob [1]),
        .msgEv 0 (.blob [2]), .unmount]).map
      (fun m => (m.createdUrls, m.revokedUrls, m.lastSkeletonUrl))
      = some ([0, 1], [], some 1) :=
  rfl

/-- C9: when no socket exists in `wsRef`, or the referenced socket's ready
state is not OPEN, `sendFrame` (both payload shapes) and `sendMeta` are
silent no-ops: nothing is sent and the entire model state is returned
unchanged (and, being total functions, they throw nothing). -/
theorem C9_theorem (m : Model) (exercise s : String) (b : List Nat)
    (kvs : List (String × Json))
    (h : ∀ sid, m.wsRef = some sid → ¬ m.socks.lookup sid = some SockState.opened) :
    sendFrameRun m (.inl s) exercise = m
    ∧ sendFrameRun m (.inr b) exercise = m
    ∧ sendMetaRun m kvs = m := by
  cases hws : m.wsRef with
  | none => exact ⟨by simp [sendFrameRun, hws], by simp [sendFrameRun, hws],
      by simp [sendMetaRun, hws]⟩
  | some sid =>
    have hl := h sid hws
    exact ⟨by simp [sendFrameRun, hws, hl], by simp [sendFrameRun, hws, hl],
      by simp [sendMetaRun, hws, hl]⟩

/-- C9: witness — at the mount state (no socket yet), both send entry points
are no-ops. -/
theorem C9_witness :
    sendFrameRun initModel (.inl "AAAA") "squat" = initModel
    ∧ sendFrameRun initModel (.inr [1, 2]) "squat" = initModel
    ∧ sendMetaRun initModel [("type", Json.str "meta")] = initModel :=
  C9_theorem initModel "squat" "AAAA" [1, 2] [("type", Json.str "meta")]
    (fun sid hs => by simp [initModel] at hs)

theorem splitOnComma_noComma (xs : List Char) (h : (',' : Char) ∉ xs) :
    splitOnComma xs = [xs] := by
  induction xs with
  | nil => rfl
  | cons c rest ih =>
    have hc : ¬ c = ',' := fun hcc => h (hcc ▸ List.mem_cons_self c rest)
    have hr : (',' : Char) ∉ rest := fun hm => h (List.mem_cons_of_mem c hm)
    rw [splitOnComma, if_neg hc, ih hr]

theorem splitOnComma_append (p q : List Char) (hp : (',' : Char) ∉ p)
    (hq : (',' : Char) ∉ q) : splitOnComma (p ++ ',' :: q) = [p, q] := by
  induction p with
  | nil => simp [splitOnComma, splitOnComma_noComma q hq]
  | cons c rest ih =>
    have hc : ¬ c = ',' := fun hcc => hp (hcc ▸ List.mem_cons_self c rest)
    have hr : (',' : Char) ∉ rest := fun hm => hp (List.mem_cons_of_mem c hm)
    rw [List.cons_append, splitOnComma, if_neg hc, ih hr]

/-- C10: `captureFrame` returns `null` whenever the video or canvas ref is
unavailable or the camera is not streaming, and again when no 2D context can
be obtained; being a total function of the model it never throws; and when
all guards pass it returns exactly the base64 payload of the JPEG data URL —
the `data:image/jpeg;base64,` header removed by `split(',')[1]` (the payload
is base64, whose alphabet contains no comma). -/
theorem C10_theorem (c : CameraModel) :
    ((c.videoPresent && c.canvasPresent && c.isStreaming) = false →
      captureFrame c = none)
    ∧ (c.ctxAvailable = false → captureFrame c = none)
    ∧ ((c.videoPresent && c.canvasPresent && c.isStreaming) = true →
        c.ctxAvailable = true → (',' : Char) ∉ c.jpegB64 →
        captureFrame c = some c.jpegB64) := by
  refine ⟨fun hg => by simp [captureFrame, hg], fun hctx => ?_, fun hg hctx hb => ?_⟩
  · cases hgb : (c.videoPresent && c.canvasPresent && c.isStreaming) with
    | false => simp [captureFrame, hgb]
    | true => simp [captureFrame, hgb, hctx]
  · have hnp : (',' : Char) ∉ "data:image/jpeg;base64".data := by decide
    have hsplit := splitOnComma_append "data:image/jpeg;base64".data c.jpegB64 hnp hb
    have hhdr : dataUrlHeader ++ c.jpegB64
        = "data:image/jpeg;base64".data ++ ',' :: c.jpegB64 := rfl
    have hcf : captureFrame c
        = some ((splitOnComma (dataUrlHeader ++ c.jpegB64)).getD 1 []) := by
      simp [captureFrame, hg, hctx]
    rw [hcf, hhdr, hsplit]
    rfl

/-- C10: witness — with everything available `captureFrame` yields exactly
the base64 payload; with the camera not streaming it yields `null`. -/
theorem C10_witness :
    captureFrame ⟨true, true, true, true, "QUJD".data⟩ = some "QUJD".data
    ∧ captureFrame ⟨true, true, false, true, "QUJD".data⟩ = none :=
  ⟨(C10_theorem ⟨true, true, true, true, "QUJD".data⟩).2.2 rfl rfl (by decide),
   (C10_theorem ⟨true, true, false, true, "QUJD".data⟩).1 rfl⟩

end Posture
